import Mathlib

/-!
Shallow embedding of the tracker-proxy service (src/main.rs): an edge caching
reverse proxy with CORS origin filtering, a TTL- and capacity-bounded response
cache, and a single fixed upstream.

Strings are modelled as `List Char`, raw byte bodies as `List Nat`, and time as
a `Nat` parameter threaded through the cache operations.
-/

namespace TrackerProxy

/-- Configuration, read once at startup (`Config` in src/main.rs). `api_key`
is required with no default; the other fields carry the source defaults via
`defaultConfig` below. -/
structure Config where
  api_key : List Char
  upstream_url : List Char
  host : List Char
  port : Nat
  cache_ttl_seconds : Nat
  cache_max_capacity : Nat
  allowed_origin_suffix : List Char
  allowed_origin_exact : List Char
deriving DecidableEq

/-- The defaults from `Config::from_env`; `api_key` is a placeholder for the
required `API_KEY` environment variable, which has no default. -/
def defaultConfig : Config where
  api_key := ("test-key").toList
  upstream_url := ("https://tracker.israeli.ovh").toList
  host := ("0.0.0.0").toList
  port := 3000
  cache_ttl_seconds := 600
  cache_max_capacity := 10000
  allowed_origin_suffix := (".artistgrid.").toList
  allowed_origin_exact := ("artistgrid.cx").toList

/-- Immutable snapshot of an upstream reply (`CachedResponse` in src/main.rs). -/
structure CachedResponse where
  status : Nat
  body : List Nat
  content_type : Option (List Char)
deriving DecidableEq

/-- `origin.strip_prefix("https://").or_else(strip_prefix("http://")).unwrap_or(origin)`. -/
def stripScheme (origin : List Char) : List Char :=
  if ("https://").toList.isPrefixOf origin then origin.drop 8
  else if ("http://").toList.isPrefixOf origin then origin.drop 7
  else origin

/-- `host.split(':').next().unwrap_or(host)`: everything before the first colon. -/
def stripPort (host : List Char) : List Char :=
  host.takeWhile (fun c => c != ':')

/-- `is_allowed_origin` from src/main.rs. -/
def is_allowed_origin (origin : List Char) (config : Config) : Bool :=
  let host := stripPort (stripScheme origin)
  host == config.allowed_origin_exact || config.allowed_origin_suffix.isSuffixOf host

/-- Modelled from the spec: the moka cache (`moka::future::Cache`) is an
external crate whose internals are not in the source tree; §4.2 CacheStore is
modelled as an association list of (key, value, insert-time) entries together
with the TTL and max-capacity it is constructed with. -/
structure CacheStore where
  entries : List (List Char × CachedResponse × Nat)
  ttl : Nat
  max_capacity : Nat
deriving DecidableEq

/-- The freshly built cache from `main`: empty, parameterized by TTL and
max capacity. -/
def CacheStore.empty (ttl max_capacity : Nat) : CacheStore :=
  ⟨[], ttl, max_capacity⟩

/-- Modelled from the spec: `get(key)` returns the cached value if present and
not expired; an entry inserted at time `t` is expired at every time `≥ t + ttl`. -/
def CacheStore.get (s : CacheStore) (k : List Char) (now : Nat) : Option CachedResponse :=
  match s.entries.find? (fun e => e.1 == k) with
  | some (_, v, t) => if now < t + s.ttl then some v else none
  | none => none

/-- Modelled from the spec: `insert(key, value)` stores the value under the key
with a fresh TTL countdown starting now (last insert wins), evicting the oldest
entries once capacity is exceeded. -/
def CacheStore.insert (s : CacheStore) (k : List Char) (v : CachedResponse) (now : Nat) :
    CacheStore :=
  { s with entries := ((k, v, now) :: s.entries.filter (fun e => e.1 != k)).take s.max_capacity }

/-- A finite sequence of inserts, oldest first. -/
def CacheStore.insertMany (s : CacheStore)
    (ops : List (List Char × CachedResponse × Nat)) : CacheStore :=
  ops.foldl (fun acc op => acc.insert op.1 op.2.1 op.2.2) s

/-- HTTP methods relevant to the router and middleware. -/
inductive Method where
  | GET
  | OPTIONS
  | POST
  | PUT
  | DELETE
deriving DecidableEq

/-- The raw `Origin` header value: either a string (`HeaderValue::to_str` ok) or
a value on which `to_str` fails (non-visible-ASCII bytes). -/
inductive OriginHeader where
  | valid (s : List Char)
  | malformed
deriving DecidableEq

/-- `headers.get(ORIGIN).and_then(to_str.ok)`: a malformed header value is
indistinguishable from an absent one. -/
def parseOrigin : Option OriginHeader → Option (List Char)
  | some (OriginHeader.valid s) => some s
  | _ => none

structure HttpRequest where
  method : Method
  path : List Char
  query : Option (List Char)
  origin : Option OriginHeader
deriving DecidableEq

structure HttpResponse where
  status : Nat
  headers : List (List Char × List Char)
  body : List Nat
deriving DecidableEq

/-- ASCII bytes of a string literal. -/
def bytesOfString (s : String) : List Nat :=
  s.toList.map Char.toNat

/-- First header with the given name, if any. -/
def headerVal (r : HttpResponse) (name : List Char) : Option (List Char) :=
  (r.headers.find? (fun h => h.1 == name)).map (fun h => h.2)

/-- `HeaderMap::insert`: replaces any existing header of that name. -/
def setHeader (r : HttpResponse) (name val : List Char) : HttpResponse :=
  { r with headers := r.headers.filter (fun h => h.1 != name) ++ [(name, val)] }

/-- Result of the reqwest round trip in `proxy_all`: `send()` can fail
(transport), otherwise status and content-type are read and `bytes()` can fail
(body read). -/
inductive FetchResult where
  | transportError
  | bodyReadError (status : Nat) (content_type : Option (List Char))
  | success (status : Nat) (content_type : Option (List Char)) (body : List Nat)
deriving DecidableEq

/-- Outcome of handling one request: the response, the cache afterwards,
whether the upstream was called, and whether the fallback pipeline
(`proxy_all`) ran at all. -/
structure Outcome where
  response : HttpResponse
  cache : CacheStore
  upstreamCalled : Bool
  pipelineInvoked : Bool
deriving DecidableEq

/-- `format!("{}{}", path, query)` with `query = query.map(|q| "?"+q).unwrap_or_default()`. -/
def cacheKeyOf (path : List Char) (query : Option (List Char)) : List Char :=
  path ++ (match query with | some q => '?' :: q | none => [])

/-- `build_response` from src/main.rs. -/
def build_response (cached : CachedResponse) (from_cache : Bool) (config : Config) :
    HttpResponse :=
  let ctHeaders :=
    match cached.content_type with
    | some ct => [(("Content-Type").toList, ct)]
    | none => []
  { status := cached.status
    headers := ctHeaders ++
      [(("Cache-Control").toList, ("public, max-age=" ++ toString config.cache_ttl_seconds).toList),
       (("X-Cache").toList, (if from_cache then "HIT" else "MISS").toList)]
    body := cached.body }

/-- `proxy_all` from src/main.rs: the fallback handler. The upstream is an
oracle from the full URL to a fetch result; `now` is the current time used by
the cache. -/
def proxy_all (config : Config) (cache : CacheStore) (path : List Char)
    (query : Option (List Char)) (upstream : List Char → FetchResult) (now : Nat) : Outcome :=
  let cache_key := cacheKeyOf path query
  match cache.get cache_key now with
  | some cached => ⟨build_response cached true config, cache, false, true⟩
  | none =>
    match upstream (config.upstream_url ++ cache_key) with
    | FetchResult.transportError =>
      ⟨⟨502, [(("Content-Type").toList, ("application/json").toList)],
        bytesOfString ("\x7b\"error\": \"Upstream request failed\"\x7d")⟩, cache, true, true⟩
    | FetchResult.bodyReadError _ _ =>
      ⟨⟨502, [(("Content-Type").toList, ("application/json").toList)],
        bytesOfString ("\x7b\"error\": \"Failed to read response\"\x7d")⟩, cache, true, true⟩
    | FetchResult.success status content_type body =>
      let cached : CachedResponse := ⟨status, body, content_type⟩
      let cache' := if 200 ≤ status ∧ status < 300 then cache.insert cache_key cached now else cache
      ⟨build_response cached false config, cache', true, true⟩

/-- `local_health`: `(StatusCode::OK, "OK")`; axum sets a text/plain content
type for a `&str` body. -/
def local_health : HttpResponse :=
  ⟨200, [(("Content-Type").toList, ("text/plain; charset=utf-8").toList)],
   bytesOfString ("OK")⟩

/-- `cache_stats`: serde_json `Value` objects order keys alphabetically, and
with moka's default unit weigher the weighted size equals the entry count. -/
def cache_stats (config : Config) (cache : CacheStore) : HttpResponse :=
  ⟨200, [(("Content-Type").toList, ("application/json").toList)],
   bytesOfString ("\x7b\"entry_count\":" ++ toString cache.entries.length ++
     ",\"max_capacity\":" ++ toString config.cache_max_capacity ++
     ",\"ttl_seconds\":" ++ toString config.cache_ttl_seconds ++
     ",\"weighted_size\":" ++ toString cache.entries.length ++ "\x7d")⟩

/-- axum's method-mismatch response on a `get(...)` route. -/
def methodNotAllowed : HttpResponse :=
  ⟨405, [(("Allow").toList, ("GET").toList)], []⟩

/-- The 403 body produced by `cors_middleware`. -/
def forbiddenResponse : HttpResponse :=
  ⟨403, [], bytesOfString ("Origin not allowed")⟩

/-- Headers injected after `next.run` when the origin is present and allowed. -/
def injectCors (r : HttpResponse) (o : List Char) : HttpResponse :=
  setHeader
    (setHeader
      (setHeader r (("Access-Control-Allow-Origin").toList) o)
      (("Access-Control-Allow-Methods").toList) (("GET, OPTIONS").toList))
    (("Vary").toList) (("Origin").toList)

/-- `cors_middleware` from src/main.rs, with the wrapped handler abstract. -/
def cors_middleware (config : Config) (cache : CacheStore) (req : HttpRequest)
    (next : CacheStore → HttpRequest → Outcome) : Outcome :=
  let origin := parseOrigin req.origin
  if req.method = Method.OPTIONS then
    match origin with
    | some o =>
      if is_allowed_origin o config then
        ⟨⟨204, [(("Access-Control-Allow-Origin").toList, o),
                (("Access-Control-Allow-Methods").toList, ("GET, OPTIONS").toList),
                (("Access-Control-Allow-Headers").toList, ("Content-Type").toList),
                (("Access-Control-Max-Age").toList, ("86400").toList)], []⟩,
         cache, false, false⟩
      else ⟨forbiddenResponse, cache, false, false⟩
    | none => ⟨forbiddenResponse, cache, false, false⟩
  else
    match origin with
    | some o =>
      if is_allowed_origin o config then
        let out := next cache req
        ⟨injectCors out.response o, out.cache, out.upstreamCalled, out.pipelineInvoked⟩
      else ⟨forbiddenResponse, cache, false, false⟩
    | none => next cache req

/-- The router from `main`: `/_health` and `/_stats` are GET routes, everything
else falls back to `proxy_all`. -/
def route (config : Config) (cache : CacheStore) (req : HttpRequest)
    (upstream : List Char → FetchResult) (now : Nat) : Outcome :=
  if req.path = ("/_health").toList then
    if req.method = Method.GET then ⟨local_health, cache, false, false⟩
    else ⟨methodNotAllowed, cache, false, false⟩
  else if req.path = ("/_stats").toList then
    if req.method = Method.GET then ⟨cache_stats config cache, cache, false, false⟩
    else ⟨methodNotAllowed, cache, false, false⟩
  else proxy_all config cache req.path req.query upstream now

/-- The whole app: the router wrapped in the CORS middleware. -/
def handle_request (config : Config) (cache : CacheStore) (req : HttpRequest)
    (upstream : List Char → FetchResult) (now : Nat) : Outcome :=
  cors_middleware config cache req (fun c r => route config c r upstream now)

/-! ## Helper lemmas -/

theorem CacheStore.get_insert_self (s : CacheStore) (k : List Char) (v : CachedResponse)
    (t now : Nat) (hcap : 1 ≤ s.max_capacity) :
    (s.insert k v t).get k now = if now < t + s.ttl then some v else none := by
  rcases s with ⟨es, ttl, cap⟩
  simp only at hcap
  obtain ⟨m, rfl⟩ : ∃ m, cap = m + 1 := ⟨cap - 1, by omega⟩
  unfold CacheStore.insert CacheStore.get
  simp only [List.take_succ_cons]
  rw [List.find?_cons_of_pos _ (by simp)]

theorem CacheStore.length_insert_le (s : CacheStore) (k : List Char) (v : CachedResponse)
    (t : Nat) : (s.insert k v t).entries.length ≤ s.max_capacity := by
  unfold CacheStore.insert
  exact List.length_take_le _ _

theorem CacheStore.insertMany_length_le (ops : List (List Char × CachedResponse × Nat))
    (s : CacheStore) (h : s.entries.length ≤ s.max_capacity) :
    (s.insertMany ops).entries.length ≤ s.max_capacity := by
  induction ops generalizing s with
  | nil => exact h
  | cons op ops ih =>
    exact ih (s.insert op.1 op.2.1 op.2.2) (s.length_insert_le op.1 op.2.1 op.2.2)

theorem headerVal_build_response_xcache (cached : CachedResponse) (fc : Bool) (config : Config) :
    headerVal (build_response cached fc config) (("X-Cache").toList) =
      some ((if fc then "HIT" else "MISS").toList) := by
  obtain ⟨st, bd, ct⟩ := cached
  cases ct <;> cases fc <;> rfl

/-! ## Claims -/

/-- C1: `is_allowed_origin o config` is true iff the host obtained by stripping
an optional `https://` or `http://` scheme and then everything from the first
`:` onward equals the configured exact-match origin or ends with the configured
suffix; in particular it is false for the empty string whenever the configured
strings are nonempty (as the defaults are). -/
theorem c1_is_allowed_origin_spec :
    (∀ (o : List Char) (config : Config),
      is_allowed_origin o config = true ↔
        (stripPort (stripScheme o) = config.allowed_origin_exact ∨
         config.allowed_origin_suffix <:+ stripPort (stripScheme o))) ∧
    (∀ config : Config, config.allowed_origin_exact ≠ [] →
      config.allowed_origin_suffix ≠ [] →
      is_allowed_origin [] config = false) := by
  have main : ∀ (o : List Char) (config : Config),
      is_allowed_origin o config = true ↔
        (stripPort (stripScheme o) = config.allowed_origin_exact ∨
         config.allowed_origin_suffix <:+ stripPort (stripScheme o)) := by
    intro o config
    simp [is_allowed_origin, List.isSuffixOf_iff_suffix]
  refine ⟨main, fun config h1 h2 => ?_⟩
  cases hT : is_allowed_origin [] config with
  | false => rfl
  | true =>
    rcases (main [] config).1 hT with h | h
    · exact absurd h.symm h1
    · exact absurd (List.suffix_nil.mp h) h2

/-- Witness for C1 at the default configuration and the empty origin. -/
theorem c1_witness :
    defaultConfig.allowed_origin_exact ≠ [] ∧
    defaultConfig.allowed_origin_suffix ≠ [] ∧
    is_allowed_origin [] defaultConfig = false :=
  ⟨by decide, by decide, c1_is_allowed_origin_spec.2 defaultConfig (by decide) (by decide)⟩

/-- C6: `build_response` copies the status verbatim, copies the body bytes
verbatim, sets `Content-Type` exactly when the stored content-type is present,
always sets `Cache-Control: public, max-age=<ttl>`, and sets `X-Cache` to `HIT`
on a cache hit and `MISS` otherwise. -/
theorem c6_build_response_spec (cached : CachedResponse) (from_cache : Bool) (config : Config) :
    (build_response cached from_cache config).status = cached.status ∧
    (build_response cached from_cache config).body = cached.body ∧
    headerVal (build_response cached from_cache config) (("Content-Type").toList) =
      cached.content_type ∧
    headerVal (build_response cached from_cache config) (("Cache-Control").toList) =
      some (("public, max-age=" ++ toString config.cache_ttl_seconds).toList) ∧
    headerVal (build_response cached from_cache config) (("X-Cache").toList) =
      some ((if from_cache then "HIT" else "MISS").toList) := by
  obtain ⟨st, bd, ct⟩ := cached
  cases ct <;> cases from_cache <;> exact ⟨rfl, rfl, rfl, rfl, rfl⟩

/-- C9: an entry inserted at time `t` into a store with TTL `T` is not returned
by `get` at any time `now ≥ t + T`. -/
theorem c9_ttl_expiry (s : CacheStore) (k : List Char) (v : CachedResponse) (t now : Nat)
    (h : t + s.ttl ≤ now) :
    (s.insert k v t).get k now = none := by
  rcases s with ⟨es, ttl, cap⟩
  simp only at h
  cases cap with
  | zero =>
    unfold CacheStore.insert CacheStore.get
    simp
  | succ m =>
    unfold CacheStore.insert CacheStore.get
    simp only [List.take_succ_cons]
    rw [List.find?_cons_of_pos _ (by simp)]
    simp only
    rw [if_neg (by omega)]

/-- Witness for C9: insert at time 0 with TTL 5, get at time 5 misses. -/
theorem c9_witness :
    ((CacheStore.empty 5 10).insert (("k").toList) ⟨200, [], none⟩ 0).get (("k").toList) 5 =
      none :=
  c9_ttl_expiry (CacheStore.empty 5 10) (("k").toList) ⟨200, [], none⟩ 0 5 (by decide)

/-- C10: starting from the freshly built cache, after any finite sequence of
inserts completes the entry count is at most the configured max capacity. -/
theorem c10_capacity_bound (config : Config) (ops : List (List Char × CachedResponse × Nat)) :
    ((CacheStore.empty config.cache_ttl_seconds config.cache_max_capacity).insertMany
        ops).entries.length ≤ config.cache_max_capacity :=
  CacheStore.insertMany_length_le ops
    (CacheStore.empty config.cache_ttl_seconds config.cache_max_capacity)
    (Nat.zero_le _)

/-- C3: on a cache miss whose upstream fetch fails, `proxy_all` returns HTTP
502 with JSON body `{"error": "Upstream request failed"}` for a transport
failure and `{"error": "Failed to read response"}` for a body-read failure,
returning immediately with the cache unmodified. -/
theorem c3_upstream_failure_terminal (config : Config) (cache : CacheStore) (path : List Char)
    (query : Option (List Char)) (upstream : List Char → FetchResult) (now : Nat)
    (hmiss : cache.get (cacheKeyOf path query) now = none) :
    (upstream (config.upstream_url ++ cacheKeyOf path query) = FetchResult.transportError →
      proxy_all config cache path query upstream now =
        ⟨⟨502, [(("Content-Type").toList, ("application/json").toList)],
          bytesOfString ("\x7b\"error\": \"Upstream request failed\"\x7d")⟩, cache, true, true⟩) ∧
    (∀ st ct,
      upstream (config.upstream_url ++ cacheKeyOf path query) = FetchResult.bodyReadError st ct →
      proxy_all config cache path query upstream now =
        ⟨⟨502, [(("Content-Type").toList, ("application/json").toList)],
          bytesOfString ("\x7b\"error\": \"Failed to read response\"\x7d")⟩, cache, true, true⟩) := by
  constructor
  · intro hup
    simp only [proxy_all]
    rw [hmiss, hup]
  · intro st ct hup
    simp only [proxy_all]
    rw [hmiss, hup]

/-- Witness for C3: an unreachable upstream on an empty cache yields 502 with
the transport-failure body and leaves the cache unchanged. -/
theorem c3_witness :
    proxy_all defaultConfig (CacheStore.empty 600 10000) (("/a").toList) none
        (fun _ => FetchResult.transportError) 0 =
      ⟨⟨502, [(("Content-Type").toList, ("application/json").toList)],
        bytesOfString ("\x7b\"error\": \"Upstream request failed\"\x7d")⟩,
       CacheStore.empty 600 10000, true, true⟩ :=
  (c3_upstream_failure_terminal defaultConfig (CacheStore.empty 600 10000) (("/a").toList) none
    (fun _ => FetchResult.transportError) 0 rfl).1 rfl

/-- C4: on a cache miss whose upstream fetch succeeds with status `st`, the
fetched response is present in the cache under the request's key iff
`200 ≤ st < 300`; regardless of `st`, the response passes the status and body
through with `X-Cache: MISS`, and for `st` outside [200, 300) the key is not in
the cache afterward. -/
theorem c4_cache_iff_2xx (config : Config) (cache : CacheStore) (path : List Char)
    (query : Option (List Char)) (upstream : List Char → FetchResult) (now : Nat)
    (st : Nat) (ct : Option (List Char)) (b : List Nat)
    (hmiss : cache.get (cacheKeyOf path query) now = none)
    (hup : upstream (config.upstream_url ++ cacheKeyOf path query) = FetchResult.success st ct b)
    (httl : 1 ≤ cache.ttl) (hcap : 1 ≤ cache.max_capacity) :
    ((proxy_all config cache path query upstream now).cache.get (cacheKeyOf path query) now =
        some ⟨st, b, ct⟩ ↔ (200 ≤ st ∧ st < 300)) ∧
    (proxy_all config cache path query upstream now).response.status = st ∧
    (proxy_all config cache path query upstream now).response.body = b ∧
    headerVal (proxy_all config cache path query upstream now).response (("X-Cache").toList) =
      some (("MISS").toList) ∧
    (¬(200 ≤ st ∧ st < 300) →
      (proxy_all config cache path query upstream now).cache.get (cacheKeyOf path query) now =
        none) := by
  have hresp : (proxy_all config cache path query upstream now).response =
      build_response ⟨st, b, ct⟩ false config := by
    simp only [proxy_all]
    rw [hmiss, hup]
  have hcache : (proxy_all config cache path query upstream now).cache =
      if 200 ≤ st ∧ st < 300 then
        cache.insert (cacheKeyOf path query) ⟨st, b, ct⟩ now
      else cache := by
    simp only [proxy_all]
    rw [hmiss, hup]
  rw [hresp, hcache]
  refine ⟨?_, rfl, rfl, headerVal_build_response_xcache ⟨st, b, ct⟩ false config, ?_⟩
  · by_cases h2 : 200 ≤ st ∧ st < 300
    · rw [if_pos h2,
        cache.get_insert_self (cacheKeyOf path query) ⟨st, b, ct⟩ now now hcap,
        if_pos (by omega)]
      simp [h2]
    · rw [if_neg h2, hmiss]
      simp [h2]
  · intro h2
    rw [if_neg h2]
    exact hmiss

/-- Witness for C4: a 404 from upstream is passed through with `X-Cache: MISS`
and is not cached. -/
theorem c4_witness :
    (proxy_all defaultConfig (CacheStore.empty 600 10000) (("/a").toList) none
        (fun _ => FetchResult.success 404 none []) 0).response.status = 404 ∧
    headerVal (proxy_all defaultConfig (CacheStore.empty 600 10000) (("/a").toList) none
        (fun _ => FetchResult.success 404 none []) 0).response (("X-Cache").toList) =
      some (("MISS").toList) ∧
    (proxy_all defaultConfig (CacheStore.empty 600 10000) (("/a").toList) none
        (fun _ => FetchResult.success 404 none []) 0).cache.get
      (cacheKeyOf (("/a").toList) none) 0 = none := by
  have h := c4_cache_iff_2xx defaultConfig (CacheStore.empty 600 10000) (("/a").toList) none
    (fun _ => FetchResult.success 404 none []) 0 404 none [] rfl rfl (by decide) (by decide)
  exact ⟨h.2.1, h.2.2.2.1, h.2.2.2.2 (by omega)⟩

/-- C5: a miss on a key followed by a 200 fetch calls the upstream and caches
the result; an identical request before TTL expiry calls no upstream, is served
with `X-Cache: HIT`, and carries the same status and body bytes as the first
response. -/
theorem c5_miss_then_hit (config : Config) (cache : CacheStore) (path : List Char)
    (query : Option (List Char)) (upstream upstream2 : List Char → FetchResult)
    (now now2 : Nat) (ct : Option (List Char)) (b : List Nat)
    (hmiss : cache.get (cacheKeyOf path query) now = none)
    (hup : upstream (config.upstream_url ++ cacheKeyOf path query) =
      FetchResult.success 200 ct b)
    (hcap : 1 ≤ cache.max_capacity)
    (hfresh : now2 < now + cache.ttl) :
    (proxy_all config cache path query upstream now).upstreamCalled = true ∧
    (proxy_all config cache path query upstream now).cache.get (cacheKeyOf path query) now2 =
      some ⟨200, b, ct⟩ ∧
    (proxy_all config (proxy_all config cache path query upstream now).cache path query
        upstream2 now2).upstreamCalled = false ∧
    headerVal (proxy_all config (proxy_all config cache path query upstream now).cache path query
        upstream2 now2).response (("X-Cache").toList) = some (("HIT").toList) ∧
    (proxy_all config (proxy_all config cache path query upstream now).cache path query
        upstream2 now2).response.status =
      (proxy_all config cache path query upstream now).response.status ∧
    (proxy_all config (proxy_all config cache path query upstream now).cache path query
        upstream2 now2).response.body =
      (proxy_all config cache path query upstream now).response.body := by
  have hresp1 : (proxy_all config cache path query upstream now).response =
      build_response ⟨200, b, ct⟩ false config := by
    simp only [proxy_all]
    rw [hmiss, hup]
  have hcalled1 : (proxy_all config cache path query upstream now).upstreamCalled = true := by
    simp only [proxy_all]
    rw [hmiss, hup]
  have hcache1 : (proxy_all config cache path query upstream now).cache =
      cache.insert (cacheKeyOf path query) ⟨200, b, ct⟩ now := by
    simp only [proxy_all]
    rw [hmiss, hup]
    simp
  have hget : (cache.insert (cacheKeyOf path query) ⟨200, b, ct⟩ now).get
      (cacheKeyOf path query) now2 = some ⟨200, b, ct⟩ := by
    rw [cache.get_insert_self (cacheKeyOf path query) ⟨200, b, ct⟩ now now2 hcap, if_pos hfresh]
  have hresp2 : (proxy_all config (cache.insert (cacheKeyOf path query) ⟨200, b, ct⟩ now)
      path query upstream2 now2).response = build_response ⟨200, b, ct⟩ true config := by
    simp only [proxy_all]
    rw [hget]
  have hcalled2 : (proxy_all config (cache.insert (cacheKeyOf path query) ⟨200, b, ct⟩ now)
      path query upstream2 now2).upstreamCalled = false := by
    simp only [proxy_all]
    rw [hget]
  rw [hcache1]
  refine ⟨hcalled1, hget, hcalled2, ?_, ?_, ?_⟩
  · rw [hresp2]
    exact headerVal_build_response_xcache ⟨200, b, ct⟩ true config
  · rw [hresp2, hresp1]
    rfl
  · rw [hresp2, hresp1]
    rfl

/-- Witness for C5 on a concrete key, body and pair of request times. -/
theorem c5_witness :
    (proxy_all defaultConfig
        (proxy_all defaultConfig (CacheStore.empty 600 10000) (("/foo").toList)
          (some (("a=1").toList)) (fun _ => FetchResult.success 200 none [1, 2]) 0).cache
        (("/foo").toList) (some (("a=1").toList))
        (fun _ => FetchResult.transportError) 10).upstreamCalled = false ∧
    headerVal (proxy_all defaultConfig
        (proxy_all defaultConfig (CacheStore.empty 600 10000) (("/foo").toList)
          (some (("a=1").toList)) (fun _ => FetchResult.success 200 none [1, 2]) 0).cache
        (("/foo").toList) (some (("a=1").toList))
        (fun _ => FetchResult.transportError) 10).response (("X-Cache").toList) =
      some (("HIT").toList) := by
  have h := c5_miss_then_hit defaultConfig (CacheStore.empty 600 10000) (("/foo").toList)
    (some (("a=1").toList)) (fun _ => FetchResult.success 200 none [1, 2])
    (fun _ => FetchResult.transportError) 0 10 none [1, 2] rfl rfl (by decide) (by decide)
  exact ⟨h.2.2.1, h.2.2.2.1⟩

/-- C2 fails as stated: a non-OPTIONS request carrying a malformed `Origin`
header (one on which `HeaderValue::to_str` fails) is treated as if the header
were absent, so it proceeds to the pipeline and calls the upstream instead of
receiving 403. -/
theorem c2_counterexample :
    (handle_request defaultConfig (CacheStore.empty 600 10000)
        ⟨Method.GET, ("/foo").toList, none, some OriginHeader.malformed⟩
        (fun _ => FetchResult.success 200 none []) 0).response.status = 200 ∧
    (handle_request defaultConfig (CacheStore.empty 600 10000)
        ⟨Method.GET, ("/foo").toList, none, some OriginHeader.malformed⟩
        (fun _ => FetchResult.success 200 none []) 0).upstreamCalled = true :=
  ⟨rfl, rfl⟩

/-- C2 (amended): for every non-OPTIONS request carrying a parseable `Origin`
header that is disallowed, the middleware answers 403, the wrapped handler is
never run (no upstream call, no pipeline), and the cache is unchanged; a
malformed `Origin` header is instead treated as absent. -/
theorem c2_disallowed_origin_rejected (config : Config) (cache : CacheStore) (req : HttpRequest)
    (next : CacheStore → HttpRequest → Outcome) (o : List Char)
    (hm : req.method ≠ Method.OPTIONS)
    (ho : req.origin = some (OriginHeader.valid o))
    (hd : is_allowed_origin o config = false) :
    (cors_middleware config cache req next).response.status = 403 ∧
    (cors_middleware config cache req next).upstreamCalled = false ∧
    (cors_middleware config cache req next).cache = cache ∧
    (cors_middleware config cache req next).pipelineInvoked = false := by
  have h : cors_middleware config cache req next = ⟨forbiddenResponse, cache, false, false⟩ := by
    simp only [cors_middleware, ho, parseOrigin]
    rw [if_neg hm, if_neg (by simp [hd])]
  rw [h]
  exact ⟨rfl, rfl, rfl, rfl⟩

/-- Witness for the amended C2: a GET from `https://evil.example` is rejected
with 403, no pipeline, cache untouched. -/
theorem c2_witness :
    (cors_middleware defaultConfig (CacheStore.empty 600 10000)
        ⟨Method.GET, ("/x").toList, none,
         some (OriginHeader.valid (("https://evil.example").toList))⟩
        (fun c r => route defaultConfig c r (fun _ => FetchResult.transportError) 0)).response.status
      = 403 ∧
    (cors_middleware defaultConfig (CacheStore.empty 600 10000)
        ⟨Method.GET, ("/x").toList, none,
         some (OriginHeader.valid (("https://evil.example").toList))⟩
        (fun c r => route defaultConfig c r (fun _ => FetchResult.transportError) 0)).upstreamCalled
      = false ∧
    (cors_middleware defaultConfig (CacheStore.empty 600 10000)
        ⟨Method.GET, ("/x").toList, none,
         some (OriginHeader.valid (("https://evil.example").toList))⟩
        (fun c r => route defaultConfig c r (fun _ => FetchResult.transportError) 0)).cache
      = CacheStore.empty 600 10000 ∧
    (cors_middleware defaultConfig (CacheStore.empty 600 10000)
        ⟨Method.GET, ("/x").toList, none,
         some (OriginHeader.valid (("https://evil.example").toList))⟩
        (fun c r => route defaultConfig c r (fun _ => FetchResult.transportError) 0)).pipelineInvoked
      = false :=
  c2_disallowed_origin_rejected defaultConfig (CacheStore.empty 600 10000)
    ⟨Method.GET, ("/x").toList, none,
     some (OriginHeader.valid (("https://evil.example").toList))⟩
    (fun c r => route defaultConfig c r (fun _ => FetchResult.transportError) 0)
    (("https://evil.example").toList) (by decide) rfl (by decide)

/-- C7: an OPTIONS request with a present, allowed `Origin` gets 204 No Content
with the origin echoed verbatim (never a wildcard), `Access-Control-Allow-Methods:
GET, OPTIONS`, `Access-Control-Allow-Headers: Content-Type` and a max-age
header, without reaching the pipeline; with the `Origin` absent or disallowed
it gets 403, also without reaching the pipeline. -/
theorem c7_options_preflight (config : Config) (cache : CacheStore) (req : HttpRequest)
    (next : CacheStore → HttpRequest → Outcome)
    (hm : req.method = Method.OPTIONS) :
    (∀ o, parseOrigin req.origin = some o → is_allowed_origin o config = true →
      (cors_middleware config cache req next).response.status = 204 ∧
      (cors_middleware config cache req next).response.body = [] ∧
      headerVal (cors_middleware config cache req next).response
        (("Access-Control-Allow-Origin").toList) = some o ∧
      headerVal (cors_middleware config cache req next).response
        (("Access-Control-Allow-Methods").toList) = some (("GET, OPTIONS").toList) ∧
      headerVal (cors_middleware config cache req next).response
        (("Access-Control-Allow-Headers").toList) = some (("Content-Type").toList) ∧
      headerVal (cors_middleware config cache req next).response
        (("Access-Control-Max-Age").toList) = some (("86400").toList) ∧
      (cors_middleware config cache req next).pipelineInvoked = false ∧
      (cors_middleware config cache req next).upstreamCalled = false ∧
      (cors_middleware config cache req next).cache = cache) ∧
    ((parseOrigin req.origin = none ∨
      (∃ o, parseOrigin req.origin = some o ∧ is_allowed_origin o config = false)) →
      (cors_middleware config cache req next).response.status = 403 ∧
      (cors_middleware config cache req next).pipelineInvoked = false ∧
      (cors_middleware config cache req next).upstreamCalled = false ∧
      (cors_middleware config cache req next).cache = cache) := by
  constructor
  · intro o ho hallow
    have h : cors_middleware config cache req next =
        ⟨⟨204, [(("Access-Control-Allow-Origin").toList, o),
                (("Access-Control-Allow-Methods").toList, ("GET, OPTIONS").toList),
                (("Access-Control-Allow-Headers").toList, ("Content-Type").toList),
                (("Access-Control-Max-Age").toList, ("86400").toList)], []⟩,
         cache, false, false⟩ := by
      simp only [cors_middleware, hm, ho, hallow]
      simp
    rw [h]
    exact ⟨rfl, rfl, rfl, rfl, rfl, rfl, rfl, rfl, rfl⟩
  · intro hbad
    have h : cors_middleware config cache req next =
        ⟨forbiddenResponse, cache, false, false⟩ := by
      rcases hbad with hnone | ⟨o, ho, hd⟩
      · simp only [cors_middleware, hm, hnone]
        simp
      · simp only [cors_middleware, hm, ho, hd]
        simp
    rw [h]
    exact ⟨rfl, rfl, rfl, rfl⟩

/-- Witness for C7: preflight from the allowed origin `https://artistgrid.cx`. -/
theorem c7_witness :
    (cors_middleware defaultConfig (CacheStore.empty 600 10000)
        ⟨Method.OPTIONS, ("/x").toList, none,
         some (OriginHeader.valid (("https://artistgrid.cx").toList))⟩
        (fun c r => route defaultConfig c r (fun _ => FetchResult.transportError) 0)).response.status
      = 204 ∧
    headerVal (cors_middleware defaultConfig (CacheStore.empty 600 10000)
        ⟨Method.OPTIONS, ("/x").toList, none,
         some (OriginHeader.valid (("https://artistgrid.cx").toList))⟩
        (fun c r => route defaultConfig c r (fun _ => FetchResult.transportError) 0)).response
      (("Access-Control-Allow-Origin").toList) = some (("https://artistgrid.cx").toList) :=
  ⟨((c7_options_preflight defaultConfig (CacheStore.empty 600 10000)
      ⟨Method.OPTIONS, ("/x").toList, none,
       some (OriginHeader.valid (("https://artistgrid.cx").toList))⟩
      (fun c r => route defaultConfig c r (fun _ => FetchResult.transportError) 0) rfl).1
      (("https://artistgrid.cx").toList) rfl (by decide)).1,
   ((c7_options_preflight defaultConfig (CacheStore.empty 600 10000)
      ⟨Method.OPTIONS, ("/x").toList, none,
       some (OriginHeader.valid (("https://artistgrid.cx").toList))⟩
      (fun c r => route defaultConfig c r (fun _ => FetchResult.transportError) 0) rfl).1
      (("https://artistgrid.cx").toList) rfl (by decide)).2.2.1⟩

/-- C8 fails as stated: the CORS middleware wraps the whole router including
`/_health`, so a GET to `/_health` carrying a disallowed `Origin` header gets
403, not 200. -/
theorem c8_counterexample :
    (handle_request defaultConfig (CacheStore.empty 600 10000)
        ⟨Method.GET, ("/_health").toList, none,
         some (OriginHeader.valid (("https://evil.example").toList))⟩
        (fun _ => FetchResult.transportError) 0).response.status = 403 :=
  rfl

/-- C8 (amended): a GET to `/_health` whose `Origin` header is absent,
malformed, or allowed gets 200 with body `OK`, nothing cached and the pipeline
never invoked; the origin filter still applies, so a parseable disallowed
`Origin` is rejected with 403. -/
theorem c8_health_ok (config : Config) (cache : CacheStore) (req : HttpRequest)
    (upstream : List Char → FetchResult) (now : Nat)
    (hm : req.method = Method.GET)
    (hp : req.path = ("/_health").toList)
    (ho : parseOrigin req.origin = none ∨
      (∃ o, parseOrigin req.origin = some o ∧ is_allowed_origin o config = true)) :
    (handle_request config cache req upstream now).response.status = 200 ∧
    (handle_request config cache req upstream now).response.body = bytesOfString ("OK") ∧
    (handle_request config cache req upstream now).cache = cache ∧
    (handle_request config cache req upstream now).upstreamCalled = false ∧
    (handle_request config cache req upstream now).pipelineInvoked = false := by
  have hroute : route config cache req upstream now = ⟨local_health, cache, false, false⟩ := by
    simp [route, hp, hm]
  rcases ho with hnone | ⟨o, hoo, hallow⟩
  · have h : handle_request config cache req upstream now =
        ⟨local_health, cache, false, false⟩ := by
      simp only [handle_request, cors_middleware, hm, hnone]
      simp [hroute]
    rw [h]
    exact ⟨rfl, rfl, rfl, rfl, rfl⟩
  · have h : handle_request config cache req upstream now =
        ⟨injectCors local_health o, cache, false, false⟩ := by
      simp only [handle_request, cors_middleware, hm, hoo, hallow]
      simp [hroute]
    rw [h]
    exact ⟨rfl, rfl, rfl, rfl, rfl⟩

/-- Witness for the amended C8: a GET to `/_health` with no `Origin` header. -/
theorem c8_witness :
    (handle_request defaultConfig (CacheStore.empty 600 10000)
        ⟨Method.GET, ("/_health").toList, none, none⟩
        (fun _ => FetchResult.transportError) 0).response.status = 200 ∧
    (handle_request defaultConfig (CacheStore.empty 600 10000)
        ⟨Method.GET, ("/_health").toList, none, none⟩
        (fun _ => FetchResult.transportError) 0).response.body = bytesOfString ("OK") :=
  ⟨(c8_health_ok defaultConfig (CacheStore.empty 600 10000)
      ⟨Method.GET, ("/_health").toList, none, none⟩
      (fun _ => FetchResult.transportError) 0 rfl rfl (Or.inl rfl)).1,
   (c8_health_ok defaultConfig (CacheStore.empty 600 10000)
      ⟨Method.GET, ("/_health").toList, none, none⟩
      (fun _ => FetchResult.transportError) 0 rfl rfl (Or.inl rfl)).2.1⟩

end TrackerProxy
